import Mathlib

/-
Verification development for the voice-interaction session engine
(`services/voice-gemini/audio_loop.py`, class `AudioLoop`).

The engine's per-iteration behaviour is embedded shallowly:

* `LoopState` collects the mutable per-instance state of `AudioLoop.__init__`
  (stop event, pause flag, echo-suppression flag `is_speaking`, the two
  frame queues, the two cumulative-transcript registers, and the VAD state).
* Each loop body (capture, receive, playback, send) and each mutating method
  (`stop`, `set_paused`, `clear_audio_queue`) becomes a function
  `LoopState → LoopState × List Effect`, where `Effect` records the
  observable callbacks (`on_transcription`, `on_tool_call`, `on_audio_data`,
  `on_error`), the messages sent into the remote session, stdout logging,
  and backoff sleeps.
* Python strings are handled at code-point granularity (`startswith`,
  `len`, slicing), which is `List Char` granularity here; the helpers
  `strStartsWith`, `strDrop`, `strLen` fix that semantics.
* Wall-clock instants (`time.time()`) are rationals; sleep durations are
  recorded in milliseconds (`asyncio.sleep(0.1)` ↦ `sleepMs 100`).
-/

namespace AudioLoopModel

/-- Python `s.startswith(p)`: code-point prefix test. -/
def strStartsWith (s p : String) : Bool :=
  p.toList.isPrefixOf s.toList

/-- Python `s[n:]`: drop the first `n` code points. -/
def strDrop (s : String) (n : Nat) : String :=
  (s.toList.drop n).asString

/-- Python `len(s)`: number of code points. -/
def strLen (s : String) : Nat :=
  s.toList.length

/-- `VAD_THRESHOLD = 800` (audio_loop.py line 213). -/
def VAD_THRESHOLD : Nat := 800

/-- `SILENCE_DURATION = 0.5` seconds (audio_loop.py line 214). -/
def SILENCE_DURATION : ℚ := 1/2

/-- VAD state of `AudioLoop`: `_is_user_speaking` and `_silence_start_time`. -/
structure VadState where
  isUserSpeaking : Bool
  silenceStart : Option ℚ
  deriving Repr, DecidableEq

/--
One VAD update on a captured frame with root-mean-square energy `rms` at
wall-clock instant `now` (audio_loop.py lines 243-254).  Above the threshold
the silence timer is cleared and the speaking flag raised (the code also logs
a "[VAD] Speech detected" line on that rising edge); at or below the
threshold, while previously speaking, a silence timer is started on the first
silent frame and the flag is dropped once a later frame arrives more than
`SILENCE_DURATION` seconds after the timer started.
-/
def vadUpdate (v : VadState) (rms : Nat) (now : ℚ) : VadState :=
  if VAD_THRESHOLD < rms then
    { isUserSpeaking := true, silenceStart := none }
  else if v.isUserSpeaking then
    match v.silenceStart with
    | none => { v with silenceStart := some now }
    | some t0 =>
      if SILENCE_DURATION < now - t0 then
        { isUserSpeaking := false, silenceStart := none }
      else v
  else v

/-- Little-endian signed 16-bit decoding of a byte list, two bytes per
sample, as `struct.unpack(f"<{count}h", data)` (audio_loop.py line 237). -/
def decodeInt16LE : List Nat → List Int
  | lo :: hi :: rest =>
    (let u := lo + 256 * hi
     if 32768 ≤ u then (u : Int) - 65536 else (u : Int)) :: decodeInt16LE rest
  | _ => []

/--
RMS energy of a raw frame (audio_loop.py lines 235-241):
`count = len(data) // 2`; when `count > 0` the bytes are unpacked as `count`
little-endian int16 samples and `rms = int(sqrt(sum_squares / count))`,
otherwise `rms = 0`.  `struct.unpack` demands an exactly even buffer, so an
odd-length buffer of 3 or more bytes raises `struct.error`, which the
enclosing read loop catches; that path is the `Except.error` case.  The
float square root is modelled by `Nat.sqrt` of the floored quotient
(`⌊sqrt x⌋ = ⌊sqrt ⌊x⌋⌋` for non-negative reals).
-/
def frameRms (data : List Nat) : Except String Nat :=
  let count := data.length / 2
  if 0 < count then
    if data.length % 2 = 0 then
      let shorts := decodeInt16LE data
      let sumSquares : Int := (shorts.map (fun v => v * v)).sum
      Except.ok (Nat.sqrt (sumSquares.toNat / count))
    else
      Except.error ("unpack requires a buffer of " ++ toString (2 * count) ++ " bytes")
  else Except.ok 0

/-- An element of `out_queue`: `{"data": data, "mime_type": "audio/pcm"}`. -/
structure OutMsg where
  data : List Nat
  mimeType : String
  deriving Repr, DecidableEq

/-- A function call inside a tool-call event: `fc.name` and `fc.args`
(argument values that reach a result string are all strings). -/
structure FunctionCall where
  name : String
  args : List (String × String)
  deriving Repr, DecidableEq

/-- Observable effects of one loop iteration: the injected callbacks, sends
into the remote session, stdout logging and backoff sleeps. -/
inductive Effect where
  | transcriptionEvt (sender text : String)
  | toolCallEvt (name : String) (args : List (String × String))
  | audioDataEvt (data : List Nat)
  | errorEvt (msg : String)
  | sendTextInput (input : String) (endOfTurn : Bool)
  | sendAudioInput (m : OutMsg) (endOfTurn : Bool)
  | printLog (msg : String)
  | sleepMs (ms : Nat)
  deriving Repr, DecidableEq

/-- The mutable per-instance state of `AudioLoop` (audio_loop.py lines
144-160): `stop_event`, `paused`, `is_speaking`, `audio_in_queue`,
`out_queue`, `_last_input_transcription`, `_last_output_transcription`,
and the VAD state. -/
structure LoopState where
  stopSet : Bool
  paused : Bool
  isSpeaking : Bool
  audioInQueue : List (List Nat)
  outQueue : List OutMsg
  lastInputTranscription : String
  lastOutputTranscription : String
  vad : VadState
  deriving Repr, DecidableEq

/-- The state right after `AudioLoop.__init__` (with the queues already
installed by `run`, lines 394-395). -/
def initState : LoopState where
  stopSet := false
  paused := false
  isSpeaking := false
  audioInQueue := []
  outQueue := []
  lastInputTranscription := ""
  lastOutputTranscription := ""
  vad := { isUserSpeaking := false, silenceStart := none }

/-- `AudioLoop.stop` (lines 166-168): raises the stop event. -/
def stopLoop (s : LoopState) : LoopState :=
  { s with stopSet := true }

/-- `AudioLoop.set_paused` (lines 162-164). -/
def setPausedOp (s : LoopState) (b : Bool) : LoopState :=
  { s with paused := b }

/-- `AudioLoop.clear_audio_queue` (lines 170-180): drain `audio_in_queue`
with `get_nowait` until empty; log how many chunks were dropped. -/
def clearAudioQueueStep (s : LoopState) : LoopState × List Effect :=
  ({ s with audioInQueue := [] },
   if 0 < s.audioInQueue.length then
     [Effect.printLog ("[AUDIO] Cleared " ++ toString s.audioInQueue.length
        ++ " chunks from playback queue")]
   else [])

/-- Outcome of `audio_stream.read` in the capture loop. -/
inductive ReadResult where
  | ok (data : List Nat)
  | err (msg : String)
  deriving Repr, DecidableEq

/--
One iteration of the capture loop body of `AudioLoop.listen_audio`
(audio_loop.py lines 216-258), after the device opened successfully.
If paused: sleep 0.1 s and retry.  Otherwise read one frame; any exception
from the read (or from the RMS unpack) is printed and followed by a 0.1 s
backoff sleep.  If `is_speaking` the frame is discarded entirely (no
enqueue, no VAD).  Otherwise the frame is enqueued on `out_queue` as
`{"data": data, "mime_type": "audio/pcm"}` and then the VAD update runs on
its RMS energy.
-/
def captureIteration (s : LoopState) (r : ReadResult) (now : ℚ) :
    LoopState × List Effect :=
  if s.paused then (s, [Effect.sleepMs 100])
  else
    match r with
    | ReadResult.err msg =>
      (s, [Effect.printLog ("[AUDIO] Read error: " ++ msg), Effect.sleepMs 100])
    | ReadResult.ok data =>
      if s.isSpeaking then (s, [])
      else
        let s1 := { s with outQueue := s.outQueue ++ [⟨data, "audio/pcm"⟩] }
        match frameRms data with
        | Except.ok rms => ({ s1 with vad := vadUpdate s1.vad rms now }, [])
        | Except.error msg =>
          (s1, [Effect.printLog ("[AUDIO] Read error: " ++ msg), Effect.sleepMs 100])

/-- Effects of the fatal input-device-open failure path of `listen_audio`
(lines 206-210): log, report through the error callback, and abort the
pipeline. -/
def captureOpenFailure (msg : String) : List Effect :=
  [Effect.printLog ("[AUDIO] Failed to open input: " ++ msg),
   Effect.errorEvt ("Microphone error: " ++ msg)]

/-- `response.server_content` with its two optional transcription texts.
An absent transcription object and a present object whose `.text` is `None`
both fail the `if transcript` guard exactly like the empty string, so both
collapse to `none`/`""` here. -/
structure ServerContent where
  inputTranscription : Option String
  outputTranscription : Option String
  deriving Repr, DecidableEq

/-- One event of the remote session's turn stream: `response.data`,
`response.server_content`, `response.tool_call.function_calls`. -/
structure ResponseEvent where
  data : Option (List Nat)
  serverContent : Option ServerContent
  toolCall : Option (List FunctionCall)
  deriving Repr, DecidableEq

/--
The cumulative-transcript diff shared by both transcription branches of
`AudioLoop.receive_audio` (lines 278-282 for input, 292-296 for output):
given the stored text `last` and the new cumulative text `t`, return the
new stored text and the delta to emit (if any).  When `t` is non-empty and
differs from `last`, the delta is `t` with the prefix `last` stripped when
`t.startswith(last)`, else all of `t`; the stored text becomes `t` (updated
before the emptiness check on the delta, matching the code).  Otherwise
nothing is emitted and the stored text is untouched.
-/
def transcriptionDelta (last t : String) : String × Option String :=
  if t ≠ "" ∧ t ≠ last then
    let delta := if strStartsWith t last then strDrop t (strLen last) else t
    (t, if delta ≠ "" then some delta else none)
  else (last, none)

/-- Input-transcription handling (lines 276-287): diff against
`_last_input_transcription`; on a non-empty delta clear the playback queue
and emit a `"User"` transcription event. -/
def processInputTranscription (s : LoopState) (t : String) :
    LoopState × List Effect :=
  match transcriptionDelta s.lastInputTranscription t with
  | (newLast, some delta) =>
    let cleared := clearAudioQueueStep { s with lastInputTranscription := newLast }
    (cleared.1, cleared.2 ++ [Effect.transcriptionEvt "User" delta])
  | (newLast, none) => ({ s with lastInputTranscription := newLast }, [])

/-- Output-transcription handling (lines 290-300): same diff against
`_last_output_transcription`; a non-empty delta emits an `"Alice"`
transcription event and nothing else (no interruption). -/
def processOutputTranscription (s : LoopState) (t : String) :
    LoopState × List Effect :=
  match transcriptionDelta s.lastOutputTranscription t with
  | (newLast, some delta) =>
    ({ s with lastOutputTranscription := newLast },
     [Effect.transcriptionEvt "Alice" delta])
  | (newLast, none) => ({ s with lastOutputTranscription := newLast }, [])

/-- `server_content` handling (lines 274-300): input transcription first,
then output transcription. -/
def processServerContent (s : LoopState) (sc : ServerContent) :
    LoopState × List Effect :=
  let step1 :=
    match sc.inputTranscription with
    | some t => processInputTranscription s t
    | none => (s, [])
  let step2 :=
    match sc.outputTranscription with
    | some t => processOutputTranscription step1.1 t
    | none => (step1.1, [])
  (step2.1, step1.2 ++ step2.2)

/-- Outcome of the single bounded-timeout HTTP call issued by the
device-control tool: either a response (status code and body text) or a
raised transport error (connection failure, timeout, ...) whose rendering
is `msg`. -/
inductive HttpOutcome where
  | resp (statusCode : Nat) (text : String)
  | transportError (msg : String)
  deriving Repr, DecidableEq

/-- Python `args.get(key, dflt)`. -/
def argsGet (args : List (String × String)) (key dflt : String) : String :=
  match args.find? (fun p => p.1 == key) with
  | some p => p.2
  | none => dflt

/--
Result string of one function call in `AudioLoop._handle_tool_calls`
(lines 326-350).  `result` starts as the fixed fallback string; the
`control_smart_home` branch issues the HTTP call (timeout 10 s) and maps
status 200 to a success string, any other status to a failure string
embedding the body text, and a raised transport error to a failure string
embedding the rendered exception; the `web_search` branch produces its
string without any call; an unrecognized name leaves the fallback.  Total:
the `try/except` converts every exception into a string.
-/
def toolCallResult (fc : FunctionCall) (http : HttpOutcome) : String :=
  if fc.name = "control_smart_home" then
    match http with
    | HttpOutcome.resp code text =>
      if code = 200 then
        "Klart! Enheten har " ++ argsGet fc.args "action" "uppdaterats" ++ "."
      else "Kunde inte styra enheten: " ++ text
    | HttpOutcome.transportError msg => "Fel vid verktygsanrop: " ++ msg
  else if fc.name = "web_search" then
    "Söker efter: " ++ argsGet fc.args "query" ""
  else "Verktyget är inte tillgängligt."

/-- `AudioLoop._handle_tool_calls` (lines 316-356): for each function call,
emit the `on_tool_call` observation, compute the result string, and send
`"Verktygsresultat för {name}: {result}"` back into the session with
`end_of_turn=True`.  (The `"[TOOL] ..."` stdout line is elided.)  `http`
supplies the outcome of the HTTP call a given function call would make. -/
def handleToolCalls (http : FunctionCall → HttpOutcome)
    (fcs : List FunctionCall) : List Effect :=
  fcs.flatMap (fun fc =>
    [Effect.toolCallEvt fc.name fc.args,
     Effect.sendTextInput
       ("Verktygsresultat för " ++ fc.name ++ ": " ++ toolCallResult fc (http fc))
       true])

/--
Processing of one response event in `AudioLoop.receive_audio`
(lines 267-304), in source order: audio data is enqueued on the playback
queue and raises `is_speaking`; then `server_content` transcriptions are
diffed (input first, possibly clearing the playback queue; then output);
then tool calls are dispatched (state unchanged, effects only).
-/
def processResponse (http : FunctionCall → HttpOutcome) (s : LoopState)
    (r : ResponseEvent) : LoopState × List Effect :=
  let step1 :=
    match r.data with
    | some d =>
      ({ s with audioInQueue := s.audioInQueue ++ [d], isSpeaking := true },
       ([] : List Effect))
    | none => (s, [])
  let step2 :=
    match r.serverContent with
    | some sc => processServerContent step1.1 sc
    | none => (step1.1, [])
  let toolEffects :=
    match r.toolCall with
    | some fcs => handleToolCalls http fcs
    | none => []
  (step2.1, step1.2 ++ step2.2 ++ toolEffects)

/-- Accumulating step of the `async for response in turn` loop: process the
next response from the current state, appending its effects. -/
def receiveFoldStep (http : FunctionCall → HttpOutcome)
    (acc : LoopState × List Effect) (r : ResponseEvent) : LoopState × List Effect :=
  let step := processResponse http acc.1 r
  (step.1, acc.2 ++ step.2)

/-- One full turn of `AudioLoop.receive_audio` (lines 266-309): fold the
events, then — whether or not the turn produced any events — reset
`is_speaking` and both cumulative-transcript registers. -/
def processTurn (http : FunctionCall → HttpOutcome) (s : LoopState)
    (turn : List ResponseEvent) : LoopState × List Effect :=
  let folded := turn.foldl (receiveFoldStep http) (s, ([] : List Effect))
  ({ folded.1 with
      isSpeaking := false
      lastInputTranscription := ""
      lastOutputTranscription := "" },
   folded.2)

/-- One iteration of `AudioLoop.send_realtime` (lines 182-186): block on
`out_queue.get()` (no progress while empty), then forward the message with
`end_of_turn=False`. -/
def sendIteration (s : LoopState) : LoopState × List Effect :=
  match s.outQueue with
  | [] => (s, [])
  | m :: rest => ({ s with outQueue := rest }, [Effect.sendAudioInput m false])

/-- One iteration of `AudioLoop.play_audio` (lines 372-386): dequeue with a
0.1 s timeout — on timeout just loop back to the stop check — else write the
frame to the device and invoke the audio observer. -/
def playbackIteration (s : LoopState) : LoopState × List Effect :=
  match s.audioInQueue with
  | [] => (s, [])
  | d :: rest => ({ s with audioInQueue := rest }, [Effect.audioDataEvt d])

/-- Loop guard of `listen_audio` (line 216): `while not self.stop_event.is_set()`. -/
def captureLoopContinues (stopSet : Bool) : Bool := !stopSet

/-- Loop guard of `receive_audio` (line 265): `while not self.stop_event.is_set()`. -/
def receiveLoopContinues (stopSet : Bool) : Bool := !stopSet

/-- Loop guard of `play_audio` (line 372): `while not self.stop_event.is_set()`. -/
def playbackLoopContinues (stopSet : Bool) : Bool := !stopSet

/-- Loop guard of `send_realtime` (line 184): `while True` — the stop event
is never consulted by this pipeline. -/
def sendLoopContinues (_ : Bool) : Bool := true

/-- Every state-mutating operation of `AudioLoop`: the three methods plus
one iteration of each pipeline loop body. -/
inductive EngineOp where
  | stop
  | setPaused (b : Bool)
  | clearAudioQueue
  | captureStep (r : ReadResult) (now : ℚ)
  | receiveTurn (http : FunctionCall → HttpOutcome) (turn : List ResponseEvent)
  | sendStep
  | playbackStep

/-- State transition of each engine operation. -/
def applyOp : EngineOp → LoopState → LoopState
  | EngineOp.stop, s => stopLoop s
  | EngineOp.setPaused b, s => setPausedOp s b
  | EngineOp.clearAudioQueue, s => (clearAudioQueueStep s).1
  | EngineOp.captureStep r now, s => (captureIteration s r now).1
  | EngineOp.receiveTurn http turn, s => (processTurn http s turn).1
  | EngineOp.sendStep, s => (sendIteration s).1
  | EngineOp.playbackStep, s => (playbackIteration s).1

/-- An HTTP oracle for scenarios in which no tool call is dispatched. -/
def noHttp : FunctionCall → HttpOutcome :=
  fun _ => HttpOutcome.transportError "unreachable"

/-- An HTTP oracle under which every call times out. -/
def timeoutHttp : FunctionCall → HttpOutcome :=
  fun _ => HttpOutcome.transportError "Timeout: anslutningen tog för lång tid"

/-- A state with playback audio pending and the speaking flag raised. -/
def preloadedState : LoopState :=
  { initState with isSpeaking := true, audioInQueue := [[0], [1], [2]] }

/-- A response event carrying only the cumulative input transcription `"hej"`. -/
def interruptEvent : ResponseEvent :=
  { data := none
    serverContent := some { inputTranscription := some "hej", outputTranscription := none }
    toolCall := none }

/- Helper lemmas (shared infrastructure, not tied to any single claim). -/

lemma strStartsWith_empty (t : String) : strStartsWith t "" = true := by
  simp [strStartsWith, List.isPrefixOf]

lemma strDrop_zero (t : String) : strDrop t 0 = t := by
  cases t
  simp [strDrop, List.asString]

lemma toList_inj {s t : String} (h : s.toList = t.toList) : s = t := by
  cases s; cases t
  simp only [String.toList] at h
  exact congrArg String.mk h

lemma strDrop_strLen_ne_empty {t last : String}
    (hp : strStartsWith t last = true) (hne : t ≠ last) :
    strDrop t (strLen last) ≠ "" := by
  intro h
  have hnil : t.toList.drop last.toList.length = [] := by
    have := congrArg String.data h
    simpa [strDrop, strLen, List.asString] using this
  have hlen : t.toList.length ≤ last.toList.length := by
    rwa [List.drop_eq_nil_iff] at hnil
  have hpre : last.toList <+: t.toList := by
    have hp' := hp
    simp only [strStartsWith] at hp'
    rwa [List.isPrefixOf_iff_prefix] at hp'
  exact hne (toList_inj (List.IsPrefix.eq_of_length_le hpre hlen).symm)

lemma transcriptionDelta_empty_last (t : String) (h : t ≠ "") :
    transcriptionDelta "" t = (t, some t) := by
  simp [transcriptionDelta, h, strStartsWith_empty, strDrop_zero, strLen]

lemma clearAudioQueueStep_fst (s : LoopState) :
    (clearAudioQueueStep s).1 = { s with audioInQueue := [] } := rfl

lemma processInputTranscription_state (s : LoopState) (t : String) :
    (processInputTranscription s t).1 =
      { s with
          lastInputTranscription := (transcriptionDelta s.lastInputTranscription t).1,
          audioInQueue :=
            if (transcriptionDelta s.lastInputTranscription t).2.isSome
            then [] else s.audioInQueue } := by
  unfold processInputTranscription
  rcases h : transcriptionDelta s.lastInputTranscription t with ⟨nl, d?⟩
  cases d? <;> simp [clearAudioQueueStep, h]

lemma processOutputTranscription_state (s : LoopState) (t : String) :
    (processOutputTranscription s t).1 =
      { s with
          lastOutputTranscription :=
            (transcriptionDelta s.lastOutputTranscription t).1 } := by
  unfold processOutputTranscription
  rcases h : transcriptionDelta s.lastOutputTranscription t with ⟨nl, d?⟩
  cases d? <;> simp [h]

lemma processServerContent_isSpeaking (s : LoopState) (sc : ServerContent) :
    (processServerContent s sc).1.isSpeaking = s.isSpeaking := by
  unfold processServerContent
  cases sc.inputTranscription <;> cases sc.outputTranscription <;>
    simp [processInputTranscription_state, processOutputTranscription_state]

lemma processServerContent_stopSet (s : LoopState) (sc : ServerContent) :
    (processServerContent s sc).1.stopSet = s.stopSet := by
  unfold processServerContent
  cases sc.inputTranscription <;> cases sc.outputTranscription <;>
    simp [processInputTranscription_state, processOutputTranscription_state]

lemma processResponse_stopSet (http : FunctionCall → HttpOutcome)
    (s : LoopState) (r : ResponseEvent) :
    (processResponse http s r).1.stopSet = s.stopSet := by
  unfold processResponse
  cases hd : r.data <;> cases hsc : r.serverContent <;>
    simp [hd, hsc, processServerContent_stopSet]

lemma receiveFold_stopSet (http : FunctionCall → HttpOutcome) :
    ∀ (turn : List ResponseEvent) (s : LoopState) (es : List Effect),
      (turn.foldl (receiveFoldStep http) (s, es)).1.stopSet = s.stopSet := by
  intro turn
  induction turn with
  | nil => intro s es; rfl
  | cons r rest ih =>
    intro s es
    simp only [List.foldl_cons, receiveFoldStep]
    rw [ih]
    exact processResponse_stopSet http s r

lemma processTurn_stopSet (http : FunctionCall → HttpOutcome)
    (s : LoopState) (turn : List ResponseEvent) :
    (processTurn http s turn).1.stopSet = s.stopSet := by
  unfold processTurn
  simp [receiveFold_stopSet]

lemma captureIteration_stopSet (s : LoopState) (r : ReadResult) (now : ℚ) :
    (captureIteration s r now).1.stopSet = s.stopSet := by
  unfold captureIteration
  by_cases hp : s.paused
  · simp [hp]
  · cases r with
    | err m => simp [hp]
    | ok data =>
      by_cases hs : s.isSpeaking
      · simp [hp, hs]
      · cases hfr : frameRms data <;> simp [hp, hs, hfr]

lemma sendIteration_stopSet (s : LoopState) :
    (sendIteration s).1.stopSet = s.stopSet := by
  unfold sendIteration
  cases s.outQueue <;> simp

lemma playbackIteration_stopSet (s : LoopState) :
    (playbackIteration s).1.stopSet = s.stopSet := by
  unfold playbackIteration
  cases s.audioInQueue <;> simp

lemma applyOp_stopSet_mono (op : EngineOp) (s : LoopState)
    (h : s.stopSet = true) : (applyOp op s).stopSet = true := by
  cases op <;>
    simp [applyOp, stopLoop, setPausedOp, clearAudioQueueStep,
          captureIteration_stopSet, processTurn_stopSet,
          sendIteration_stopSet, playbackIteration_stopSet, h]

/-- C1: for every response event whose input-transcription text yields a
non-empty computed delta against the stored cumulative transcript, the
inbound (playback) queue is empty immediately after the event is processed,
regardless of its prior contents (and regardless of any audio data the same
event carries, which is enqueued before the transcription is handled). -/
theorem C1_interruption_clears_inbound_queue
    (http : FunctionCall → HttpOutcome) (s : LoopState) (r : ResponseEvent)
    (sc : ServerContent) (t d : String)
    (hsc : r.serverContent = some sc)
    (hin : sc.inputTranscription = some t)
    (hd : (transcriptionDelta s.lastInputTranscription t).2 = some d) :
    (processResponse http s r).1.audioInQueue = [] := by
  unfold processResponse processServerContent
  cases hdata : r.data <;> cases hout : sc.outputTranscription <;>
    simp [hsc, hin, hout, processInputTranscription_state,
          processOutputTranscription_state, hd]

/-- C1 witness: three frames are queued for playback, the cumulative input
transcription `"hej"` arrives against stored text `""`, and the queue is
empty afterwards. -/
theorem C1_interruption_clears_inbound_queue_witness :
    (transcriptionDelta preloadedState.lastInputTranscription "hej").2 = some "hej" ∧
    (processResponse noHttp preloadedState interruptEvent).1.audioInQueue = [] :=
  ⟨by decide,
   C1_interruption_clears_inbound_queue noHttp _ _
     { inputTranscription := some "hej", outputTranscription := none }
     "hej" "hej" rfl rfl (by decide)⟩

/-- C2 counterexample: with the speaking flag raised beforehand, a response
event whose input transcription yields the non-empty delta `"hej"` leaves
the speaking flag `true` after processing — the code clears the playback
queue on interruption but never resets `is_speaking` there (that happens
only at the turn boundary), so the claim that the flag is false immediately
after such an event is false. -/
theorem C2_speaking_flag_counterexample :
    (transcriptionDelta
        ({ initState with isSpeaking := true } : LoopState).lastInputTranscription
        "hej").2 = some "hej" ∧
    ¬ ((processResponse noHttp { initState with isSpeaking := true }
          interruptEvent).1.isSpeaking = false) := by
  decide

/-- C2 (amended): after processing any response event, the speaking flag is
`true` exactly when the event carried audio data, and otherwise keeps its
prior value; in particular a non-empty input-transcription delta leaves the
flag unchanged — interruption clears the inbound queue only, and the flag is
reset only at the turn boundary. -/
theorem C2_speaking_flag_after_event (http : FunctionCall → HttpOutcome)
    (s : LoopState) (r : ResponseEvent) :
    (processResponse http s r).1.isSpeaking = (r.data.isSome || s.isSpeaking) := by
  unfold processResponse
  cases hd : r.data <;> cases hsc : r.serverContent <;>
    simp [hd, hsc, processServerContent_isSpeaking]

/-- C3 counterexample: with stored text `"hej"` and new cumulative text `""`,
no event is emitted (as the claim says) but the stored text stays `"hej"`
rather than becoming the new text `""`, so the claim's final clause — that
after processing the stored text equals the new text — is false. -/
theorem C3_stored_text_counterexample :
    (transcriptionDelta "hej" "").2 = none ∧
    ¬ ((transcriptionDelta "hej" "").1 = "") := by decide

/-- C3 (amended): the transcript diff emits nothing when the new text is
empty or unchanged; strips the stored prefix when the new text extends it;
emits the whole new text otherwise; stores the new text afterwards whenever
the new text is non-empty (an empty new text leaves the stored text
unchanged); the emitted delta reaches the event sink tagged `"User"` for the
input direction and `"Alice"` for the output direction; and the spec's
worked examples `"hej"`/`"hej där"`/`"nej"` behave as stated. -/
theorem C3_transcript_diffing (s : LoopState) (last t : String) :
    ((t = "" ∨ t = last) → (transcriptionDelta last t).2 = none) ∧
    (t ≠ "" → t ≠ last → strStartsWith t last = true →
      (transcriptionDelta last t).2 = some (strDrop t (strLen last))) ∧
    (t ≠ "" → t ≠ last → strStartsWith t last = false →
      (transcriptionDelta last t).2 = some t) ∧
    (t ≠ "" → (transcriptionDelta last t).1 = t) ∧
    (t = "" → (transcriptionDelta last t).1 = last) ∧
    (∀ d, (transcriptionDelta s.lastInputTranscription t).2 = some d →
      Effect.transcriptionEvt "User" d ∈ (processInputTranscription s t).2) ∧
    ((transcriptionDelta s.lastOutputTranscription t).2 = none →
      (processOutputTranscription s t).2 = []) ∧
    (∀ d, (transcriptionDelta s.lastOutputTranscription t).2 = some d →
      (processOutputTranscription s t).2 = [Effect.transcriptionEvt "Alice" d]) ∧
    transcriptionDelta "" "hej" = ("hej", some "hej") ∧
    transcriptionDelta "hej" "hej där" = ("hej där", some " där") ∧
    transcriptionDelta "hej" "nej" = ("nej", some "nej") := by
  refine ⟨?_, ?_, ?_, ?_, ?_, ?_, ?_, ?_, by decide, by decide, by decide⟩
  · rintro (h | h) <;> simp [transcriptionDelta, h]
  · intro h1 h2 hp
    simp [transcriptionDelta, h1, h2, hp, strDrop_strLen_ne_empty hp h2]
  · intro h1 h2 hp
    simp [transcriptionDelta, h1, h2, hp]
  · intro h1
    by_cases h2 : t = last
    · simp [transcriptionDelta, h2]
    · simp [transcriptionDelta, h1, h2]
  · intro h1
    simp [transcriptionDelta, h1]
  · intro d hd
    rcases h : transcriptionDelta s.lastInputTranscription t with ⟨nl, d?⟩
    rw [h] at hd
    cases d? with
    | none => exact absurd hd (by simp)
    | some d0 =>
      have hdd : d0 = d := by simpa using hd
      subst hdd
      simp [processInputTranscription, h, clearAudioQueueStep]
  · intro hd
    rcases h : transcriptionDelta s.lastOutputTranscription t with ⟨nl, d?⟩
    rw [h] at hd
    cases d? with
    | some d0 => exact absurd hd (by simp)
    | none => simp [processOutputTranscription, h]
  · intro d hd
    rcases h : transcriptionDelta s.lastOutputTranscription t with ⟨nl, d?⟩
    rw [h] at hd
    cases d? with
    | none => exact absurd hd (by simp)
    | some d0 =>
      have hdd : d0 = d := by simpa using hd
      subst hdd
      simp [processOutputTranscription, h]

/-- C3 witness: the prefix case at `"hej"`/`"hej där"`, and the emitted
`"User"` event for the delta `"hej"` from the fresh state. -/
theorem C3_transcript_diffing_witness :
    (transcriptionDelta "hej" "hej där").2 = some (strDrop "hej där" (strLen "hej")) ∧
    Effect.transcriptionEvt "User" "hej"
      ∈ (processInputTranscription initState "hej").2 :=
  ⟨(C3_transcript_diffing initState "hej" "hej där").2.1
     (by decide) (by decide) (by decide),
   (C3_transcript_diffing initState "" "hej").2.2.2.2.2.1 "hej" (by decide)⟩

/-- C4: at every turn boundary — even for a turn that produced no events —
the speaking flag is reset to false and both stored cumulative transcripts
are reset to the empty string, so the first output-transcription event of
the next turn emits a delta equal to its full text. -/
theorem C4_turn_boundary_reset (http : FunctionCall → HttpOutcome)
    (s : LoopState) (turn : List ResponseEvent) :
    (processTurn http s turn).1.isSpeaking = false ∧
    (processTurn http s turn).1.lastInputTranscription = "" ∧
    (processTurn http s turn).1.lastOutputTranscription = "" ∧
    (∀ t : String, t ≠ "" →
      transcriptionDelta (processTurn http s turn).1.lastOutputTranscription t
        = (t, some t)) := by
  refine ⟨by simp [processTurn], by simp [processTurn], by simp [processTurn], ?_⟩
  intro t ht
  have h : (processTurn http s turn).1.lastOutputTranscription = "" := by
    simp [processTurn]
  rw [h]
  exact transcriptionDelta_empty_last t ht

/-- C4 witness: after a turn that triggered an interruption from a speaking
state, the flag is down and the next output text `"väder"` is emitted in
full. -/
theorem C4_turn_boundary_reset_witness :
    (processTurn noHttp preloadedState [interruptEvent]).1.isSpeaking = false ∧
    transcriptionDelta
      (processTurn noHttp preloadedState [interruptEvent]).1.lastOutputTranscription
      "väder" = ("väder", some "väder") :=
  ⟨(C4_turn_boundary_reset noHttp preloadedState [interruptEvent]).1,
   (C4_turn_boundary_reset noHttp preloadedState [interruptEvent]).2.2.2 "väder"
     (by decide)⟩

/-- C5: a frame with RMS above the threshold (default 800) sets
`isUserSpeaking` and clears the silence timer; while speaking, a frame at or
below the threshold keeps the flag up whenever its recorded sub-threshold
silence has lasted less than `SILENCE_DURATION` (default 0.5 s) — including
the very first silent frame, which only starts the timer; and the flag can
flip to false only on a sub-threshold frame whose silence timer was started
at least `SILENCE_DURATION` seconds earlier (the timer having been cleared
by every above-threshold frame, the silence was continuous). -/
theorem C5_vad_hysteresis (v : VadState) (rms : Nat) (now : ℚ) :
    (VAD_THRESHOLD < rms →
      vadUpdate v rms now = { isUserSpeaking := true, silenceStart := none }) ∧
    (v.isUserSpeaking = true → rms ≤ VAD_THRESHOLD →
      (v.silenceStart = none → (vadUpdate v rms now).isUserSpeaking = true) ∧
      (∀ t0, v.silenceStart = some t0 → now - t0 < SILENCE_DURATION →
        (vadUpdate v rms now).isUserSpeaking = true)) ∧
    (v.isUserSpeaking = true → (vadUpdate v rms now).isUserSpeaking = false →
      ∃ t0, v.silenceStart = some t0 ∧ rms ≤ VAD_THRESHOLD ∧
        SILENCE_DURATION ≤ now - t0) := by
  refine ⟨?_, ?_, ?_⟩
  · intro hr
    simp [vadUpdate, hr]
  · intro hsp hle
    have hr : ¬ VAD_THRESHOLD < rms := not_lt.mpr hle
    refine ⟨?_, ?_⟩
    · intro hn
      simp [vadUpdate, hr, hsp, hn]
    · intro t0 ht0 hlt
      have hnd : ¬ SILENCE_DURATION < now - t0 := not_lt.mpr (le_of_lt hlt)
      simp [vadUpdate, hr, hsp, ht0, hnd]
  · intro hsp hflip
    by_cases hr : VAD_THRESHOLD < rms
    · simp [vadUpdate, hr] at hflip
    · cases hsil : v.silenceStart with
      | none => simp [vadUpdate, hr, hsp, hsil] at hflip
      | some t0 =>
        by_cases hdur : SILENCE_DURATION < now - t0
        · exact ⟨t0, rfl, not_lt.mp hr, le_of_lt hdur⟩
        · simp [vadUpdate, hr, hsp, hsil, hdur] at hflip

/-- C5 witness: RMS 801 at a quiet start raises the flag; RMS 100 a quarter
second into silence keeps it; and a flip observed one second into silence
certifies sub-threshold energy and at least half a second of silence. -/
theorem C5_vad_hysteresis_witness :
    vadUpdate { isUserSpeaking := false, silenceStart := none } 801 0
      = { isUserSpeaking := true, silenceStart := none } ∧
    (vadUpdate { isUserSpeaking := true, silenceStart := some 0 } 100
        (1/4)).isUserSpeaking = true ∧
    (∃ t0, (some (0:ℚ)) = some t0 ∧ (100:ℕ) ≤ VAD_THRESHOLD ∧
      SILENCE_DURATION ≤ (1:ℚ) - t0) :=
  ⟨(C5_vad_hysteresis ⟨false, none⟩ 801 0).1 (by decide),
   ((C5_vad_hysteresis ⟨true, some 0⟩ 100 (1/4)).2.1 rfl (by decide)).2 0 rfl
     (by norm_num [SILENCE_DURATION]),
   (C5_vad_hysteresis ⟨true, some 0⟩ 100 1).2.2 rfl
     (by simp [vadUpdate, VAD_THRESHOLD, SILENCE_DURATION]; norm_num)⟩

/-- C6: when the speaking flag is up as a frame is read (and the engine is
not paused, else no frame is read at all), the capture iteration discards
the frame entirely: the state — outbound queue and VAD state included — is
unchanged and no effect is produced. -/
theorem C6_echo_suppression_discards_frame (s : LoopState) (data : List Nat)
    (now : ℚ) (hp : s.paused = false) (hs : s.isSpeaking = true) :
    captureIteration s (ReadResult.ok data) now = (s, []) := by
  simp [captureIteration, hp, hs]

/-- C6 witness: a concrete frame read while the speaking flag is up leaves
the preloaded state untouched. -/
theorem C6_echo_suppression_discards_frame_witness :
    captureIteration preloadedState (ReadResult.ok [1, 2]) 0
      = (preloadedState, []) :=
  C6_echo_suppression_discards_frame preloadedState [1, 2] 0 rfl rfl

/-- C7: tool dispatch is a total function into result strings — an
unrecognized tool name yields the fixed fallback string; for the
device-control tool a non-success HTTP response yields a descriptive failure
string and a transport error (timeout included) yields a failure string
embedding the error text; and each function call's result is sent back into
the session tagged end-of-turn (every session send made by the dispatcher is
end-of-turn). -/
theorem C7_tool_dispatch_total (fc : FunctionCall)
    (http : FunctionCall → HttpOutcome) (fcs : List FunctionCall) :
    (fc.name ≠ "control_smart_home" → fc.name ≠ "web_search" →
      toolCallResult fc (http fc) = "Verktyget är inte tillgängligt.") ∧
    (∀ code text, fc.name = "control_smart_home" →
      http fc = HttpOutcome.resp code text → code ≠ 200 →
      toolCallResult fc (http fc) = "Kunde inte styra enheten: " ++ text) ∧
    (∀ emsg, fc.name = "control_smart_home" →
      http fc = HttpOutcome.transportError emsg →
      toolCallResult fc (http fc) = "Fel vid verktygsanrop: " ++ emsg) ∧
    (fc ∈ fcs →
      Effect.sendTextInput
        ("Verktygsresultat för " ++ fc.name ++ ": " ++ toolCallResult fc (http fc))
        true ∈ handleToolCalls http fcs) ∧
    (∀ input b, Effect.sendTextInput input b ∈ handleToolCalls http fcs →
      b = true) := by
  refine ⟨?_, ?_, ?_, ?_, ?_⟩
  · intro h1 h2
    simp [toolCallResult, h1, h2]
  · intro code text hn hh hc
    simp [toolCallResult, hn, hh, hc]
  · intro emsg hn hh
    simp [toolCallResult, hn, hh]
  · intro hmem
    exact List.mem_flatMap.mpr ⟨fc, hmem, by simp⟩
  · intro input b hmem
    rcases List.mem_flatMap.mp hmem with ⟨fc0, _, hin⟩
    simp at hin
    rcases hin with ⟨_, hb⟩
    exact hb

/-- C7 witness: the fallback string for an unknown tool, the failure string
for HTTP 500, the failure string embedding a timeout error, and the
end-of-turn send of the unknown-tool result. -/
theorem C7_tool_dispatch_total_witness :
    toolCallResult ⟨"okänd_funktion", []⟩ (timeoutHttp ⟨"okänd_funktion", []⟩)
      = "Verktyget är inte tillgängligt." ∧
    toolCallResult ⟨"control_smart_home", [("device", "lampa"), ("action", "turn_on")]⟩
        (HttpOutcome.resp 500 "internal error")
      = "Kunde inte styra enheten: internal error" ∧
    toolCallResult ⟨"control_smart_home", []⟩
        (timeoutHttp ⟨"control_smart_home", []⟩)
      = "Fel vid verktygsanrop: Timeout: anslutningen tog för lång tid" ∧
    Effect.sendTextInput
      ("Verktygsresultat för okänd_funktion: "
        ++ toolCallResult ⟨"okänd_funktion", []⟩ (timeoutHttp ⟨"okänd_funktion", []⟩))
      true ∈ handleToolCalls timeoutHttp [⟨"okänd_funktion", []⟩] := by
  refine ⟨?_, ?_, ?_, ?_⟩
  · exact (C7_tool_dispatch_total ⟨"okänd_funktion", []⟩ timeoutHttp []).1
      (by decide) (by decide)
  · exact (C7_tool_dispatch_total
      ⟨"control_smart_home", [("device", "lampa"), ("action", "turn_on")]⟩
      (fun _ => HttpOutcome.resp 500 "internal error") []).2.1 500 "internal error"
      rfl rfl (by decide)
  · exact (C7_tool_dispatch_total ⟨"control_smart_home", []⟩ timeoutHttp []).2.2.1
      "Timeout: anslutningen tog för lång tid" rfl rfl
  · exact (C7_tool_dispatch_total ⟨"okänd_funktion", []⟩ timeoutHttp
      [⟨"okänd_funktion", []⟩]).2.2.2.1 (by decide)

/-- C8 counterexample: the Send pipeline's loop guard is `while True` — it
never consults the stop signal, so with the signal raised its guard is still
true, refuting the claim that every one of the four pipelines observes the
raised signal within one iteration and exits its loop. -/
theorem C8_send_never_polls_counterexample : ¬ (sendLoopContinues true = false) := by
  decide

/-- C8 (amended): the stop signal, once raised, is never cleared by any
engine operation (irreversibility), and the Capture, Receive and Playback
loops each observe the raised signal at their per-iteration guard and exit;
the Send pipeline's guard never consults the signal — on shutdown that task
is cancelled externally rather than polled. -/
theorem C8_stop_signal_irreversible :
    (∀ (op : EngineOp) (s : LoopState), s.stopSet = true →
      (applyOp op s).stopSet = true) ∧
    captureLoopContinues true = false ∧
    receiveLoopContinues true = false ∧
    playbackLoopContinues true = false ∧
    (∀ b, sendLoopContinues b = true) :=
  ⟨applyOp_stopSet_mono, by decide, by decide, by decide, fun _ => rfl⟩

/-- C8 witness: re-issuing `stop` on an already-stopped engine keeps the
signal raised. -/
theorem C8_stop_signal_irreversible_witness :
    (applyOp EngineOp.stop { initState with stopSet := true }).stopSet = true :=
  C8_stop_signal_irreversible.1 EngineOp.stop { initState with stopSet := true } rfl

/-- C9 counterexample: a device read failure in the capture loop produces
only a stdout log line and a backoff sleep — no `on_error` callback effect
is emitted (the callback fires only for the fatal device-open failure), so
the claim that read failures are reported via the error callback is false. -/
theorem C9_read_failure_not_reported_counterexample :
    (captureIteration initState (ReadResult.err "boom") 0).2
      = [Effect.printLog "[AUDIO] Read error: boom", Effect.sleepMs 100] ∧
    ¬ (Effect.errorEvt "Microphone error: boom"
        ∈ (captureIteration initState (ReadResult.err "boom") 0).2) := by
  decide

/-- C9 (amended): a device read failure after a successful open is
non-fatal: the state is unchanged (so the loop, whose guard checks only the
stop signal, continues), the failure is logged to stdout, and the pipeline
sleeps 0.1 s before retrying; it is not reported via the error callback —
only the device-open failure is. -/
theorem C9_read_failure_nonfatal (s : LoopState) (msg : String) (now : ℚ)
    (hp : s.paused = false) :
    captureIteration s (ReadResult.err msg) now
      = (s, [Effect.printLog ("[AUDIO] Read error: " ++ msg), Effect.sleepMs 100]) := by
  simp [captureIteration, hp]

/-- C9 witness: the read-failure path evaluated on the fresh state. -/
theorem C9_read_failure_nonfatal_witness :
    captureIteration initState (ReadResult.err "boom") 0
      = (initState,
         [Effect.printLog "[AUDIO] Read error: boom", Effect.sleepMs 100]) :=
  C9_read_failure_nonfatal initState "boom" 0 rfl

/-- C10: the RMS computation is total on degenerate frames — a frame of
fewer than 2 bytes has zero samples and yields RMS 0 instead of dividing by
zero, and the capture iteration still runs the VAD classification on that
value. -/
theorem C10_rms_total_on_short_frame (data : List Nat) (s : LoopState)
    (now : ℚ) (hlen : data.length < 2) (hp : s.paused = false)
    (hs : s.isSpeaking = false) :
    frameRms data = Except.ok 0 ∧
    (captureIteration s (ReadResult.ok data) now).1.vad = vadUpdate s.vad 0 now := by
  have hc : data.length / 2 = 0 := Nat.div_eq_of_lt hlen
  have h1 : frameRms data = Except.ok 0 := by
    simp [frameRms, hc]
  refine ⟨h1, ?_⟩
  simp [captureIteration, hp, hs, h1]

/-- C10 witness: the empty frame on the fresh state. -/
theorem C10_rms_total_on_short_frame_witness :
    frameRms [] = Except.ok 0 ∧
    (captureIteration initState (ReadResult.ok []) 0).1.vad
      = vadUpdate initState.vad 0 0 :=
  C10_rms_total_on_short_frame [] initState 0 (by decide) rfl rfl

end AudioLoopModel
